import Mathlib

/-!
Verification of the PLQY measurement/analysis pipeline of `abs_plqy_gui.py`.

The pure numerical kernel of the program is embedded shallowly:

* spectrometer data, calibration curves and CSV tables carry `float64`
  values; every value the program manipulates on the paths verified here is
  a finitely representable rational, so finite float values are modelled by
  `ℚ` (and by `ℝ` where the code takes a square root);
* `numpy.gradient` (one argument, `edge_order = 1`) is modelled by
  `npGradient`, including its rejection of arrays with fewer than two
  elements (a `ValueError`), which surfaces as `Option.none`;
* IEEE special values (`inf`, `-inf`, `nan`) produced by float division by
  zero and by `pandas.Series.std` over a single sample are modelled by the
  explicit carrier types `FQ` (over `ℚ`) and `FR` (over `ℝ`);
* the thread synchronisation of `collect_intensities` /
  `measure_34410a_current_average` is modelled by an explicit interleaving
  semantics over a shared-state record.
-/

namespace AbsPlqy

/-- Arithmetic mean of a list: `np.mean` on a 1-d array / `pandas.mean`.
For the empty list this is `0/0 = 0` in `ℚ`; every use below is guarded by
a nonemptiness hypothesis where the float result would matter. -/
def listMean (xs : List ℚ) : ℚ := xs.sum / (xs.length : ℚ)

/-- Pointwise product followed by a sum: `(series.mul dx).sum()`. -/
def dot (xs ys : List ℚ) : ℚ := (List.zipWith (fun a b => a * b) xs ys).sum

/-- One entry of `np.gradient(xs)` (single-argument form, unit spacing,
`edge_order = 1`): one-sided differences at the two ends, centered
differences in the interior. Source: `np.gradient` as called at
`abs_plqy_gui.py:340`, `:705` and `:716`. -/
def gradAt (xs : List ℚ) (i : ℕ) : ℚ :=
  if i = 0 then xs.getD 1 0 - xs.getD 0 0
  else if i = xs.length - 1 then xs.getD i 0 - xs.getD (i - 1) 0
  else (xs.getD (i + 1) 0 - xs.getD (i - 1) 0) / 2

/-- All entries of `np.gradient(xs)` for an array of sufficient length. -/
def gradList (xs : List ℚ) : List ℚ := (List.range xs.length).map (gradAt xs)

/-- `np.gradient(xs)` with its input validation: numpy raises `ValueError`
("Shape of array too small to calculate a numerical gradient, at least
(edge_order + 1) elements are required") when the array has fewer than two
elements; the error is modelled as `none`. -/
def npGradient (xs : List ℚ) : Option (List ℚ) :=
  if xs.length < 2 then none else some (gradList xs)

/-- Wavelengths selected by the boolean mask
`(lo < df["wavelength"]) & (df["wavelength"] < hi)` — strict at both ends
(`abs_plqy_gui.py:702` and `:713`). -/
def selRows (wl : List ℚ) (lo hi : ℚ) : List ℚ :=
  wl.filter (fun w => decide (lo < w ∧ w < hi))

/-- A data column filtered by the same wavelength mask. -/
def selCol (wl col : List ℚ) (lo hi : ℚ) : List ℚ :=
  ((wl.zip col).filter (fun p => decide (lo < p.1 ∧ p.1 < hi))).map Prod.snd

/-- The spectrum table produced by `collect_multi` and reloaded for
analysis: a wavelength column, one calibrated-intensity column per
measurement (`meas_0`, `meas_1`, ...) and the `mean_photon_counts` column. -/
structure SpecTable where
  wl : List ℚ
  meas : List (List ℚ)
  meanCol : List ℚ
deriving DecidableEq

/-- The one-row power table: per-measurement mean powers
(`meas0_power`, ...) and the overall `laser_power_mean_uA` column. -/
structure PowerRow where
  meas : List ℚ
  mean : ℚ
deriving DecidableEq

/-- The output of `counts_region` (`abs_plqy_gui.py:685-726`): per column,
the power-normalised integrated counts of the excitation (laser) window and
of the emission (fluorescence) window. The row labelled
`mean_photon_counts` is kept separate from the per-measurement rows, which
matches how `calculate_plqy` (mean row only) and `calculate_plqy_std`
(`.drop("mean_photon_counts")`) consume it. -/
structure RegionCounts where
  excitMeas : List ℚ
  excitMean : ℚ
  fluorMeas : List ℚ
  fluorMean : ℚ
deriving DecidableEq

/-- `AnalyzeDataFrame.counts_region` (`abs_plqy_gui.py:685-726`): for each
of the two windows, select the rows with wavelength strictly between the
bounds, take `np.gradient` of the selected wavelengths, multiply each
selected intensity by its local spacing, sum each column, and divide each
column's sum positionally by that column's power reading. A window whose
selection has fewer than two points makes `np.gradient` raise, modelled as
`none`. -/
def countsRegion (t : SpecTable) (pw : PowerRow) (lLo lHi fLo fHi : ℚ) :
    Option RegionCounts :=
  match npGradient (selRows t.wl lLo lHi), npGradient (selRows t.wl fLo fHi) with
  | some dxL, some dxF =>
      some { excitMeas := (t.meas.zip pw.meas).map
               (fun cp => dot dxL (selCol t.wl cp.1 lLo lHi) / cp.2),
             excitMean := dot dxL (selCol t.wl t.meanCol lLo lHi) / pw.mean,
             fluorMeas := (t.meas.zip pw.meas).map
               (fun cp => dot dxF (selCol t.wl cp.1 fLo fHi) / cp.2),
             fluorMean := dot dxF (selCol t.wl t.meanCol fLo fHi) / pw.mean }
  | _, _ => none

/-- `self.photons_emitted_mean` (`abs_plqy_gui.py:748-749`): emission-window
mean-column sum of the sample minus that of the blank. -/
def photonsEmittedMean (bA sA : RegionCounts) : ℚ := sA.fluorMean - bA.fluorMean

/-- `self.photons_abs_mean` (`abs_plqy_gui.py:750-751`): excitation-window
mean-column sum of the blank minus that of the sample. -/
def photonsAbsMean (bA sA : RegionCounts) : ℚ := bA.excitMean - sA.excitMean

/-- `self.plqy_mean` (`abs_plqy_gui.py:752`) on the finite, nonzero-divisor
path. -/
def plqyMean (bA sA : RegionCounts) : ℚ :=
  photonsEmittedMean bA sA / photonsAbsMean bA sA

/-- `AnalyzeDataFrame.calculate_plqy` (`abs_plqy_gui.py:728-752`): run
`counts_region` on the blank and on the sample, then combine the two mean
rows into the photon balance and their ratio. -/
def calculatePlqy (blank : SpecTable) (blankP : PowerRow)
    (sample : SpecTable) (sampleP : PowerRow) (lLo lHi fLo fHi : ℚ) :
    Option (RegionCounts × RegionCounts × ℚ × ℚ × ℚ) := do
  let bA ← countsRegion blank blankP lLo lHi fLo fHi
  let sA ← countsRegion sample sampleP lLo lHi fLo fHi
  pure (bA, sA, photonsEmittedMean bA sA, photonsAbsMean bA sA, plqyMean bA sA)

/-- The calibrated conversion of `CollectDataFrame.collect_multi`
(`abs_plqy_gui.py:481-485`): per wavelength point,
`(intensities - dark) * irradcal / delta_x * wavelength / 1000`, where
`delta_x` is `np.gradient` of the instrument wavelength axis computed in
`InitializeFrame.init_spec` (`abs_plqy_gui.py:339-340`). The gradient of an
axis with fewer than two points would raise, modelled as `none`. -/
def convertSpectrum (wl dark calib raw : List ℚ) : Option (List ℚ) :=
  (npGradient wl).map (fun dx => (List.range wl.length).map (fun i =>
    (raw.getD i 0 - dark.getD i 0) * calib.getD i 0 / dx.getD i 0 *
      wl.getD i 0 / 1000))

/-- A `float64` value that is either finite (with the finite value carried
exactly as a rational) or one of the IEEE special values. -/
inductive FQ where
  | num (q : ℚ)
  | pinf
  | ninf
  | nan
deriving DecidableEq

/-- `float64` division of two finite values: IEEE semantics at a zero
divisor (`a/0` is `inf`, `-inf` or `nan` by the sign of `a`; numpy emits a
`RuntimeWarning`, not an exception). The sign of a floating-point zero
numerator is not modelled; the program never produces a negative zero on
this path. -/
def fdivF (a b : ℚ) : FQ :=
  if b = 0 then (if 0 < a then .pinf else if a < 0 then .ninf else .nan)
  else .num (a / b)

/-- `self.plqy_mean = self.photons_emitted_mean/self.photons_abs_mean`
(`abs_plqy_gui.py:752`) with the float semantics of the division made
explicit. -/
def plqyMeanF (bA sA : RegionCounts) : FQ :=
  fdivF (photonsEmittedMean bA sA) (photonsAbsMean bA sA)

/-- A `float64` value is "undefined-flagged" when it is not finite. -/
def FQ.isUndef : FQ → Bool
  | .num _ => false
  | _ => true

/-- Claim C1: for every blank and sample analysis pair the PLQY point
estimate is computed from the mean columns only, as
`photons_emitted = sample.emission_mean - blank.emission_mean`,
`photons_absorbed = blank.excitation_mean - sample.excitation_mean` and
`plqy = photons_emitted / photons_absorbed`; the estimate is invariant
under changes of the per-measurement columns; and on blank region sums
(excitation 100, emission 10) and sample region sums (excitation 40,
emission 50) it yields `photons_absorbed = 60`, `photons_emitted = 40` and
`plqy = 0.667` within tolerance `1/1000`. -/
theorem plqy_point_estimate_from_mean_columns :
    (∀ blank blankP sample sampleP lLo lHi fLo fHi bA sA,
      countsRegion blank blankP lLo lHi fLo fHi = some bA →
      countsRegion sample sampleP lLo lHi fLo fHi = some sA →
      calculatePlqy blank blankP sample sampleP lLo lHi fLo fHi =
        some (bA, sA, sA.fluorMean - bA.fluorMean,
              bA.excitMean - sA.excitMean,
              (sA.fluorMean - bA.fluorMean) / (bA.excitMean - sA.excitMean))) ∧
    (∀ bA sA bA' sA', bA.excitMean = bA'.excitMean →
      bA.fluorMean = bA'.fluorMean → sA.excitMean = sA'.excitMean →
      sA.fluorMean = sA'.fluorMean →
      plqyMean bA sA = plqyMean bA' sA' ∧
      photonsEmittedMean bA sA = photonsEmittedMean bA' sA' ∧
      photonsAbsMean bA sA = photonsAbsMean bA' sA') ∧
    (∀ bA sA, bA.excitMean = 100 → bA.fluorMean = 10 →
      sA.excitMean = 40 → sA.fluorMean = 50 →
      photonsAbsMean bA sA = 60 ∧ photonsEmittedMean bA sA = 40 ∧
      |plqyMean bA sA - 667/1000| ≤ 1/1000) := by
  refine ⟨?_, ?_, ?_⟩
  · intro blank blankP sample sampleP lLo lHi fLo fHi bA sA h1 h2
    simp [calculatePlqy, h1, h2, plqyMean, photonsEmittedMean, photonsAbsMean]
  · intro bA sA bA' sA' h1 h2 h3 h4
    simp [plqyMean, photonsEmittedMean, photonsAbsMean, h1, h2, h3, h4]
  · intro bA sA h1 h2 h3 h4
    refine ⟨?_, ?_, ?_⟩
    · rw [photonsAbsMean, h1, h3]; norm_num
    · rw [photonsEmittedMean, h2, h4]; norm_num
    · rw [plqyMean, photonsEmittedMean, photonsAbsMean, h1, h2, h3, h4]
      norm_num [abs_le]

/-- Witness for C1 at concrete inputs: a concrete two-table analysis whose
`counts_region` results are computed by `decide`, and the concrete region
sums of the claim's numeric example. -/
theorem plqy_point_estimate_from_mean_columns_witness :
    calculatePlqy ⟨[0, 1, 2, 3], [[1, 1, 1, 1]], [1, 1, 1, 1]⟩ ⟨[1], 1⟩
        ⟨[0, 1, 2, 3], [[2, 2, 2, 2]], [2, 2, 2, 2]⟩ ⟨[1], 1⟩ (-1) 4 (-1) 4 =
      some (⟨[4], 4, [4], 4⟩, ⟨[8], 8, [8], 8⟩,
            (⟨[8], 8, [8], 8⟩ : RegionCounts).fluorMean -
              (⟨[4], 4, [4], 4⟩ : RegionCounts).fluorMean,
            (⟨[4], 4, [4], 4⟩ : RegionCounts).excitMean -
              (⟨[8], 8, [8], 8⟩ : RegionCounts).excitMean,
            ((⟨[8], 8, [8], 8⟩ : RegionCounts).fluorMean -
              (⟨[4], 4, [4], 4⟩ : RegionCounts).fluorMean) /
            ((⟨[4], 4, [4], 4⟩ : RegionCounts).excitMean -
              (⟨[8], 8, [8], 8⟩ : RegionCounts).excitMean)) ∧
    photonsAbsMean ⟨[], 100, [], 10⟩ ⟨[], 40, [], 50⟩ = 60 ∧
    photonsEmittedMean ⟨[], 100, [], 10⟩ ⟨[], 40, [], 50⟩ = 40 ∧
    |plqyMean ⟨[], 100, [], 10⟩ ⟨[], 40, [], 50⟩ - 667/1000| ≤ 1/1000 := by
  refine ⟨?_, ?_⟩
  · exact plqy_point_estimate_from_mean_columns.1 _ _ _ _ _ _ _ _ _ _
      (by norm_num [countsRegion, npGradient, gradList, gradAt, selRows,
        selCol, dot, List.range_succ])
      (by norm_num [countsRegion, npGradient, gradList, gradAt, selRows,
        selCol, dot, List.range_succ])
  · exact plqy_point_estimate_from_mean_columns.2.2 _ _ rfl rfl rfl rfl

/-- Claim C6: when `photons_absorbed` is zero the PLQY estimate is an
explicit undefined (IEEE `inf`/`nan`) value — the float division emits a
warning rather than raising, and the result is never a (finite) silent
zero. -/
theorem plqy_zero_absorbed_undefined (bA sA : RegionCounts)
    (hab : photonsAbsMean bA sA = 0) :
    (plqyMeanF bA sA).isUndef = true ∧ ∀ q : ℚ, plqyMeanF bA sA ≠ .num q := by
  have h : plqyMeanF bA sA =
      (if 0 < photonsEmittedMean bA sA then .pinf
       else if photonsEmittedMean bA sA < 0 then .ninf else .nan) := by
    simp [plqyMeanF, fdivF, hab]
  constructor
  · rw [h]
    split <;> [rfl; skip]
    split <;> rfl
  · intro q
    rw [h]
    split <;> [simp; skip]
    split <;> simp

/-- Entry `i` of a list built by mapping over `List.range`. -/
theorem getD_map_range (n : ℕ) (f : ℕ → ℚ) (i : ℕ) (h : i < n) :
    ((List.range n).map f).getD i 0 = f i := by
  simp [List.getD_eq_getElem?_getD, List.getElem?_map, List.getElem?_range, h]

/-- Claim C2: the calibrated conversion computes, at every wavelength
point, `(raw - dark) * calib / delta_x * wavelength / 1000` with the
operations applied in exactly that (left-associated) order, where
`delta_x` is the centered-difference gradient of the instrument wavelength
axis: one-sided differences at the two ends and
`(wl[i+1] - wl[i-1]) / 2` in the interior. -/
theorem calibrated_conversion_pointwise (wl dark calib raw : List ℚ)
    (hwl : 2 ≤ wl.length) :
    ∃ ys, convertSpectrum wl dark calib raw = some ys ∧
      ys.length = wl.length ∧
      (∀ i, i < wl.length → ys.getD i 0 =
        (((raw.getD i 0 - dark.getD i 0) * calib.getD i 0 / gradAt wl i) *
          wl.getD i 0) / 1000) ∧
      gradAt wl 0 = wl.getD 1 0 - wl.getD 0 0 ∧
      gradAt wl (wl.length - 1) =
        wl.getD (wl.length - 1) 0 - wl.getD (wl.length - 2) 0 ∧
      (∀ i, 0 < i → i + 1 < wl.length →
        gradAt wl i = (wl.getD (i + 1) 0 - wl.getD (i - 1) 0) / 2) := by
  have hnot : ¬ wl.length < 2 := not_lt.mpr hwl
  refine ⟨(List.range wl.length).map (fun i =>
      (raw.getD i 0 - dark.getD i 0) * calib.getD i 0 /
        (gradList wl).getD i 0 * wl.getD i 0 / 1000),
    by simp [convertSpectrum, npGradient, hnot], by simp, ?_, ?_, ?_, ?_⟩
  · intro i hi
    rw [getD_map_range _ _ _ hi, gradList, getD_map_range _ _ _ hi]
  · simp [gradAt]
  · have h0 : wl.length - 1 ≠ 0 := by omega
    have h2 : wl.length - 1 - 1 = wl.length - 2 := by omega
    simp [gradAt, h0, h2]
  · intro i h1 h2
    have hi0 : i ≠ 0 := by omega
    have hil : i ≠ wl.length - 1 := by omega
    simp [gradAt, hi0, hil]

/-- Witness for C2 on a concrete four-point axis. -/
theorem calibrated_conversion_pointwise_witness :
    2 ≤ ([0, 1, 3, 7] : List ℚ).length ∧
    ∃ ys, convertSpectrum [0, 1, 3, 7] [1, 1, 1, 1] [2, 2, 2, 2]
        [3, 4, 5, 6] = some ys ∧
      ys.length = ([0, 1, 3, 7] : List ℚ).length ∧
      (∀ i, i < ([0, 1, 3, 7] : List ℚ).length → ys.getD i 0 =
        ((([3, 4, 5, 6].getD i 0 - [1, 1, 1, 1].getD i 0) *
            [2, 2, 2, 2].getD i 0 / gradAt [0, 1, 3, 7] i) *
          [0, 1, 3, 7].getD i 0) / 1000) ∧
      gradAt [0, 1, 3, 7] 0 =
        [0, 1, 3, 7].getD 1 0 - [0, 1, 3, 7].getD 0 0 ∧
      gradAt [0, 1, 3, 7] (([0, 1, 3, 7] : List ℚ).length - 1) =
        [0, 1, 3, 7].getD (([0, 1, 3, 7] : List ℚ).length - 1) 0 -
          [0, 1, 3, 7].getD (([0, 1, 3, 7] : List ℚ).length - 2) 0 ∧
      (∀ i, 0 < i → i + 1 < ([0, 1, 3, 7] : List ℚ).length →
        gradAt [0, 1, 3, 7] i =
          ([0, 1, 3, 7].getD (i + 1) 0 - [0, 1, 3, 7].getD (i - 1) 0) / 2) :=
  ⟨by norm_num,
    calibrated_conversion_pointwise [0, 1, 3, 7] [1, 1, 1, 1] [2, 2, 2, 2]
      [3, 4, 5, 6] (by norm_num)⟩

/-- Counterexample to C4 as universally stated: on a bounds pair whose
strict selection contains exactly one wavelength point, `counts_region`
does not multiply-and-sum that point — `np.gradient` of the one-point
selection raises `ValueError` (modelled as `none`), so no sums are
produced at all. -/
theorem region_integration_singleton_selection_errors :
    selRows ([1, 2, 3] : List ℚ) (3/2) (5/2) = [2] ∧
    countsRegion ⟨[1, 2, 3], [[5, 5, 5]], [5, 5, 5]⟩ ⟨[1], 1⟩
      (3/2) (5/2) 0 4 = none := by
  constructor
  · norm_num [selRows]
  · norm_num [countsRegion, npGradient, gradList, gradAt, selRows, selCol,
      dot, List.range_succ]

/-- Claim C4 (amended): provided each region's strict selection contains at
least two wavelength points, region integration selects the points with
wavelength strictly between the bounds (exclusive at both ends),
recomputes the local spacing by centered-difference gradient over the
selected subset only, multiplies each selected intensity by that spacing
and sums, then divides each column's sum by that column's power reading. -/
theorem region_integration_per_column (t : SpecTable) (pw : PowerRow)
    (lLo lHi fLo fHi : ℚ)
    (hL : 2 ≤ (selRows t.wl lLo lHi).length)
    (hF : 2 ≤ (selRows t.wl fLo fHi).length) :
    countsRegion t pw lLo lHi fLo fHi = some
      ⟨(t.meas.zip pw.meas).map (fun cp =>
          dot (gradList (selRows t.wl lLo lHi)) (selCol t.wl cp.1 lLo lHi) /
            cp.2),
        dot (gradList (selRows t.wl lLo lHi)) (selCol t.wl t.meanCol lLo lHi) /
          pw.mean,
        (t.meas.zip pw.meas).map (fun cp =>
          dot (gradList (selRows t.wl fLo fHi)) (selCol t.wl cp.1 fLo fHi) /
            cp.2),
        dot (gradList (selRows t.wl fLo fHi)) (selCol t.wl t.meanCol fLo fHi) /
          pw.mean⟩ ∧
    (∀ w, w ∈ selRows t.wl lLo lHi ↔ w ∈ t.wl ∧ lLo < w ∧ w < lHi) ∧
    (∀ w, w ∈ selRows t.wl fLo fHi ↔ w ∈ t.wl ∧ fLo < w ∧ w < fHi) := by
  refine ⟨?_, ?_, ?_⟩
  · simp [countsRegion, npGradient, not_lt.mpr hL, not_lt.mpr hF]
  · intro w
    simp [selRows, List.mem_filter]
  · intro w
    simp [selRows, List.mem_filter]

/-- Witness for C4 (amended) on a concrete table whose two selections each
hold two points. -/
theorem region_integration_per_column_witness :
    2 ≤ (selRows (⟨[1, 2, 3, 4], [[5, 5, 5, 5]], [5, 5, 5, 5]⟩ :
        SpecTable).wl (3/2) (7/2)).length ∧
    2 ≤ (selRows (⟨[1, 2, 3, 4], [[5, 5, 5, 5]], [5, 5, 5, 5]⟩ :
        SpecTable).wl 0 5).length ∧
    (countsRegion ⟨[1, 2, 3, 4], [[5, 5, 5, 5]], [5, 5, 5, 5]⟩ ⟨[1], 1⟩
        (3/2) (7/2) 0 5 = some
      ⟨((⟨[1, 2, 3, 4], [[5, 5, 5, 5]], [5, 5, 5, 5]⟩ :
            SpecTable).meas.zip (⟨[1], 1⟩ : PowerRow).meas).map (fun cp =>
          dot (gradList (selRows (⟨[1, 2, 3, 4], [[5, 5, 5, 5]],
              [5, 5, 5, 5]⟩ : SpecTable).wl (3/2) (7/2)))
            (selCol (⟨[1, 2, 3, 4], [[5, 5, 5, 5]], [5, 5, 5, 5]⟩ :
              SpecTable).wl cp.1 (3/2) (7/2)) / cp.2),
        dot (gradList (selRows (⟨[1, 2, 3, 4], [[5, 5, 5, 5]],
            [5, 5, 5, 5]⟩ : SpecTable).wl (3/2) (7/2)))
          (selCol (⟨[1, 2, 3, 4], [[5, 5, 5, 5]], [5, 5, 5, 5]⟩ :
            SpecTable).wl (⟨[1, 2, 3, 4], [[5, 5, 5, 5]], [5, 5, 5, 5]⟩ :
            SpecTable).meanCol (3/2) (7/2)) / (⟨[1], 1⟩ : PowerRow).mean,
        ((⟨[1, 2, 3, 4], [[5, 5, 5, 5]], [5, 5, 5, 5]⟩ :
            SpecTable).meas.zip (⟨[1], 1⟩ : PowerRow).meas).map (fun cp =>
          dot (gradList (selRows (⟨[1, 2, 3, 4], [[5, 5, 5, 5]],
              [5, 5, 5, 5]⟩ : SpecTable).wl 0 5))
            (selCol (⟨[1, 2, 3, 4], [[5, 5, 5, 5]], [5, 5, 5, 5]⟩ :
              SpecTable).wl cp.1 0 5) / cp.2),
        dot (gradList (selRows (⟨[1, 2, 3, 4], [[5, 5, 5, 5]],
            [5, 5, 5, 5]⟩ : SpecTable).wl 0 5))
          (selCol (⟨[1, 2, 3, 4], [[5, 5, 5, 5]], [5, 5, 5, 5]⟩ :
            SpecTable).wl (⟨[1, 2, 3, 4], [[5, 5, 5, 5]], [5, 5, 5, 5]⟩ :
            SpecTable).meanCol 0 5) / (⟨[1], 1⟩ : PowerRow).mean⟩) ∧
    (∀ w, w ∈ selRows (⟨[1, 2, 3, 4], [[5, 5, 5, 5]], [5, 5, 5, 5]⟩ :
        SpecTable).wl (3/2) (7/2) ↔
      w ∈ (⟨[1, 2, 3, 4], [[5, 5, 5, 5]], [5, 5, 5, 5]⟩ :
        SpecTable).wl ∧ (3/2 : ℚ) < w ∧ w < 7/2) := by
  refine ⟨?_, ?_, ?_⟩
  · norm_num [selRows]
  · norm_num [selRows]
  · exact ⟨(region_integration_per_column _ _ _ _ _ _
      (by norm_num [selRows]) (by norm_num [selRows])).1,
      (region_integration_per_column
        (⟨[1, 2, 3, 4], [[5, 5, 5, 5]], [5, 5, 5, 5]⟩ : SpecTable)
        (⟨[1], 1⟩ : PowerRow) (3/2) (7/2) 0 5
        (by norm_num [selRows]) (by norm_num [selRows])).2.1⟩

/-- Counterexample to C5 as stated: on a bounds pair selecting no
wavelength points, `counts_region` does not return a zero sum — it fails
(the `np.gradient` call on the empty selection raises `ValueError`,
modelled as `none`). -/
theorem empty_selection_errors_not_zero :
    selRows ([1, 2, 3] : List ℚ) 10 20 = [] ∧
    countsRegion ⟨[1, 2, 3], [[1, 1, 1]], [1, 1, 1]⟩ ⟨[2], 2⟩
      10 20 30 40 = none := by
  constructor
  · norm_num [selRows]
  · norm_num [countsRegion, npGradient, selRows]

/-- Claim C5 (amended): for every bounds pair that selects no wavelength
points (bounds outside the axis range, or low at least high), region
integration raises an error (the gradient of the empty selection),
modelled as `none` — it does not return a zero sum. -/
theorem region_integration_empty_selection_errors (t : SpecTable)
    (pw : PowerRow) (lLo lHi fLo fHi : ℚ)
    (h : selRows t.wl lLo lHi = [] ∨ selRows t.wl fLo fHi = []) :
    countsRegion t pw lLo lHi fLo fHi = none := by
  rcases h with h | h
  · simp [countsRegion, npGradient, h]
  · cases hx : npGradient (selRows t.wl lLo lHi) <;>
      simp [countsRegion, npGradient, h, hx]

/-- Witness for C5 (amended): a bounds pair with `low = high` (hence an
empty strict selection) on a concrete table. -/
theorem region_integration_empty_selection_errors_witness :
    selRows (⟨[1, 2, 3], [[1, 1, 1]], [1, 1, 1]⟩ : SpecTable).wl 2 2 = [] ∧
    countsRegion ⟨[1, 2, 3], [[1, 1, 1]], [1, 1, 1]⟩ ⟨[2], 2⟩ 2 2 0 4 =
      none :=
  ⟨by norm_num [selRows],
    region_integration_empty_selection_errors _ _ _ _ _ _
      (Or.inl (by norm_num [selRows]))⟩

/-- Witness for C6 at a concrete input with `photons_absorbed = 0`. -/
theorem plqy_zero_absorbed_undefined_witness :
    photonsAbsMean ⟨[], 5, [], 1⟩ ⟨[], 5, [], 3⟩ = 0 ∧
    ((plqyMeanF ⟨[], 5, [], 1⟩ ⟨[], 5, [], 3⟩).isUndef = true ∧
      ∀ q : ℚ, plqyMeanF ⟨[], 5, [], 1⟩ ⟨[], 5, [], 3⟩ ≠ .num q) :=
  ⟨by norm_num [photonsAbsMean],
    plqy_zero_absorbed_undefined _ _ (by norm_num [photonsAbsMean])⟩

/-- Element-wise mean of equal-length rows: `np.mean(data_array, axis=0)`
(`abs_plqy_gui.py:144`). The output length is the length of the first row,
which equals the common length on the hypotheses used below. -/
def meanCols (ss : List (List ℚ)) : List ℚ :=
  (List.range (ss.headD []).length).map
    (fun j => (ss.map (fun s => s.getD j 0)).sum / (ss.length : ℚ))

/-- `collect_intensities` (`abs_plqy_gui.py:117-148`), with the per-subrun
synchronised acquisition abstracted as `sampler k = (spectrum, mean power)`
of the `k`-th invocation: loop over `range n` collecting `data_array` and
`power_mean_array`, then return `np.mean(data_array, axis=0)` and
`np.mean(power_mean_array)`. -/
def collectIntensities (n : ℕ) (sampler : ℕ → List ℚ × ℚ) : List ℚ × ℚ :=
  (meanCols (((List.range n).map sampler).map Prod.fst),
   listMean (((List.range n).map sampler).map Prod.snd))

/-- Head of a list built by mapping over a nonempty `List.range`. -/
theorem headD_map_range {α : Type} (n : ℕ) (hn : 0 < n) (f : ℕ → α)
    (d : α) : ((List.range n).map f).headD d = f 0 := by
  cases n with
  | zero => omega
  | succ m => rw [List.range_succ_eq_map]; rfl

/-- Claim C7: for every subrun count at least 1, subrun collection invokes
the synchronised sampler exactly `n` times (the invocations `0, ..., n-1`,
each once, in order) and returns the element-wise arithmetic mean of the
`n` spectra — of the same length as the wavelength axis — together with the
arithmetic mean of the `n` per-subrun mean powers. -/
theorem subrun_collection_mean (n L : ℕ) (sampler : ℕ → List ℚ × ℚ)
    (hn : 1 ≤ n) (hL : ∀ k, k < n → (sampler k).1.length = L) :
    (collectIntensities n sampler).1.length = L ∧
    (∀ j, j < L → (collectIntensities n sampler).1.getD j 0 =
      ((List.range n).map (fun k => (sampler k).1.getD j 0)).sum / (n : ℚ)) ∧
    (collectIntensities n sampler).2 =
      ((List.range n).map (fun k => (sampler k).2)).sum / (n : ℚ) := by
  have hruns : ((List.range n).map sampler).map Prod.fst
      = (List.range n).map (fun k => (sampler k).1) := by
    rw [List.map_map]; rfl
  have hhead : (((List.range n).map sampler).map Prod.fst).headD []
      = (sampler 0).1 := by
    rw [hruns, headD_map_range n hn (fun k => (sampler k).1)]
  refine ⟨?_, ?_, ?_⟩
  · show (meanCols _).length = L
    rw [meanCols, hhead, hL 0 hn]
    simp
  · intro j hj
    show (meanCols _).getD j 0 = _
    rw [meanCols, hhead, hL 0 hn, getD_map_range _ _ _ hj, hruns,
      List.map_map]
    simp [Function.comp_def]
  · show listMean _ = _
    rw [listMean, List.map_map]
    simp [Function.comp_def]

/-- Witness for C7: three subruns of a concrete sampler. -/
theorem subrun_collection_mean_witness :
    (1 ≤ 3 ∧ ∀ k, k < 3 →
      ((fun k => ([(k : ℚ), (k : ℚ) + 1], (k : ℚ))) k).1.length = 2) ∧
    ((collectIntensities 3
        (fun k => ([(k : ℚ), (k : ℚ) + 1], (k : ℚ)))).1.length = 2 ∧
      (∀ j, j < 2 → (collectIntensities 3
          (fun k => ([(k : ℚ), (k : ℚ) + 1], (k : ℚ)))).1.getD j 0 =
        ((List.range 3).map (fun k =>
          ((fun k => ([(k : ℚ), (k : ℚ) + 1], (k : ℚ))) k).1.getD j 0)).sum /
          (3 : ℚ)) ∧
      (collectIntensities 3
          (fun k => ([(k : ℚ), (k : ℚ) + 1], (k : ℚ)))).2 =
        ((List.range 3).map (fun k =>
          ((fun k => ([(k : ℚ), (k : ℚ) + 1], (k : ℚ))) k).2)).sum /
          (3 : ℚ)) :=
  ⟨⟨by norm_num, fun k _ => by norm_num⟩,
    subrun_collection_mean 3 2 _ (by norm_num) (fun k _ => by norm_num)⟩

/-- One line of the persisted CSV artifact written by
`collect_blank`/`collect_sample` (`abs_plqy_gui.py:509-525`, `:534-545`):
a header line of column names, a data line of `float64` values, or the
blank separator line. Cell values are carried exactly: the default pandas
float format prints the shortest decimal that parses back to the same
`float64`, so `to_csv` followed by `read_csv` is value-exact. -/
inductive CsvLine where
  | headerLine (names : List String)
  | rowLine (vals : List ℚ)
  | emptyLine
deriving DecidableEq

/-- The artifact layout written by `collect_blank`/`collect_sample`:
`df_power.to_csv` (header plus its single row), a blank line, then
`df_multi.to_csv` (header plus one line per wavelength). -/
def saveMeasurementSet (powerNames : List String) (powerVals : List ℚ)
    (specNames : List String) (specRows : List (List ℚ)) : List CsvLine :=
  [.headerLine powerNames, .rowLine powerVals, .emptyLine,
    .headerLine specNames] ++ specRows.map .rowLine

/-- `pandas.read_csv` `skiprows` filtering: drop line `i` exactly when
`skip i` holds, keeping the remaining lines in order. -/
def keepLines (skip : ℕ → Bool) : ℕ → List CsvLine → List CsvLine
  | _, [] => []
  | i, l :: ls =>
      if skip i then keepLines skip (i + 1) ls
      else l :: keepLines skip (i + 1) ls

/-- `pd.read_csv(..., skiprows=...)` line selection, counting from line 0. -/
def readCsv (skip : ℕ → Bool) (file : List CsvLine) : List CsvLine :=
  keepLines skip 0 file

/-- The integer form `skiprows=3`: drop the first three lines. -/
def skipFirstThree (i : ℕ) : Bool := decide (i < 3)

/-- The callable form `skiprows=lambda x: x not in [0, 1]`: drop every
line other than lines 0 and 1. -/
def skipAllButFirstTwo (i : ℕ) : Bool := decide (¬ (i = 0 ∨ i = 1))

/-- The data rows of the kept lines; fails if a kept line is not a data
line. -/
def rowsOf : List CsvLine → Option (List (List ℚ))
  | [] => some []
  | .rowLine v :: ls => (rowsOf ls).map (fun vs => v :: vs)
  | _ => none

/-- Interpret the kept lines as a table: first line the header, remaining
lines the data rows. -/
def parseTable : List CsvLine → Option (List String × List (List ℚ))
  | .headerLine ns :: rest => (rowsOf rest).map (fun rows => (ns, rows))
  | _ => none

theorem keepLines_of_all_false (skip : ℕ → Bool) (k : ℕ)
    (ls : List CsvLine) (h : ∀ i, k ≤ i → skip i = false) :
    keepLines skip k ls = ls := by
  induction ls generalizing k with
  | nil => rfl
  | cons l ls ih =>
      rw [keepLines, h k le_rfl, ih (k + 1) (fun i hi => h i (by omega))]
      rfl

theorem keepLines_of_all_true (skip : ℕ → Bool) (k : ℕ)
    (ls : List CsvLine) (h : ∀ i, k ≤ i → skip i = true) :
    keepLines skip k ls = [] := by
  induction ls generalizing k with
  | nil => rfl
  | cons l ls ih =>
      rw [keepLines, h k le_rfl, ih (k + 1) (fun i hi => h i (by omega))]
      rfl

theorem rowsOf_map_rowLine (rows : List (List ℚ)) :
    rowsOf (rows.map CsvLine.rowLine) = some rows := by
  induction rows with
  | nil => rfl
  | cons r rows ih => rw [List.map_cons, rowsOf, ih]; rfl

/-- Claim C8: persisting a MeasurementSet (power table, blank line, then
spectrum table in one artifact) and reloading it with the two `read_csv`
calls of the program (`skiprows=3` for the spectrum table,
`skiprows=lambda x: x not in [0,1]` for the power table,
`abs_plqy_gui.py:523-525`) reproduces the same spectrum table (hence the
same per-column values and the same `mean_photon_counts` column) and the
same one-row power table. -/
theorem measurement_set_roundtrip (powerNames : List String)
    (powerVals : List ℚ) (specNames : List String)
    (specRows : List (List ℚ)) :
    parseTable (readCsv skipFirstThree
        (saveMeasurementSet powerNames powerVals specNames specRows)) =
      some (specNames, specRows) ∧
    parseTable (readCsv skipAllButFirstTwo
        (saveMeasurementSet powerNames powerVals specNames specRows)) =
      some (powerNames, [powerVals]) := by
  constructor
  · have h4 : keepLines skipFirstThree 4 (specRows.map .rowLine)
        = specRows.map .rowLine :=
      keepLines_of_all_false _ _ _
        (by intro i hi; simp [skipFirstThree]; omega)
    have step : readCsv skipFirstThree
        (saveMeasurementSet powerNames powerVals specNames specRows) =
        CsvLine.headerLine specNames ::
          keepLines skipFirstThree 4 (specRows.map .rowLine) := rfl
    rw [step, h4, parseTable, rowsOf_map_rowLine]
    rfl
  · have h2 : keepLines skipAllButFirstTwo 4 (specRows.map .rowLine) = [] :=
      keepLines_of_all_true _ _ _
        (by intro i hi; simp [skipAllButFirstTwo]; omega)
    have step : readCsv skipAllButFirstTwo
        (saveMeasurementSet powerNames powerVals specNames specRows) =
        CsvLine.headerLine powerNames :: CsvLine.rowLine powerVals ::
          keepLines skipAllButFirstTwo 4 (specRows.map .rowLine) := rfl
    rw [step, h2]
    rfl

/-- A `float64` value over a real carrier, for the standard-deviation
pipeline whose square roots leave the rationals: finite, infinite or
`nan`. -/
inductive FR where
  | num (x : ℝ)
  | pinf
  | ninf
  | nan

/-- IEEE 754 addition on `FR`. -/
noncomputable def FR.add : FR → FR → FR
  | nan, _ => nan
  | _, nan => nan
  | pinf, ninf => nan
  | ninf, pinf => nan
  | pinf, _ => pinf
  | _, pinf => pinf
  | ninf, _ => ninf
  | _, ninf => ninf
  | num a, num b => num (a + b)

/-- IEEE 754 multiplication on `FR` (`inf * 0` is `nan`; any operand `nan`
gives `nan`). -/
noncomputable def FR.mul : FR → FR → FR
  | nan, _ => nan
  | _, nan => nan
  | num a, num b => num (a * b)
  | pinf, pinf => pinf
  | pinf, ninf => ninf
  | ninf, pinf => ninf
  | ninf, ninf => pinf
  | pinf, num b => if 0 < b then pinf else if b < 0 then ninf else nan
  | num a, pinf => if 0 < a then pinf else if a < 0 then ninf else nan
  | ninf, num b => if 0 < b then ninf else if b < 0 then pinf else nan
  | num a, ninf => if 0 < a then ninf else if a < 0 then pinf else nan

/-- IEEE 754 division on `FR` (finite `a/0` is a signed infinity or `nan`
by the sign of `a`; `inf/inf` is `nan`; the sign of a floating zero is not
modelled, the program producing no negative zero on these paths). -/
noncomputable def FR.div : FR → FR → FR
  | nan, _ => nan
  | _, nan => nan
  | num a, num b =>
      if b = 0 then (if 0 < a then pinf else if a < 0 then ninf else nan)
      else num (a / b)
  | num _, pinf => num 0
  | num _, ninf => num 0
  | pinf, num b => if 0 ≤ b then pinf else ninf
  | ninf, num b => if 0 ≤ b then ninf else pinf
  | pinf, pinf => nan
  | pinf, ninf => nan
  | ninf, pinf => nan
  | ninf, ninf => nan

/-- `x ** 0.5` on `float64`: `nan` for negative finite bases (numpy
`invalid value` warning) and for `nan`, `inf` for `inf`. -/
noncomputable def FR.sqrtF : FR → FR
  | nan => nan
  | pinf => pinf
  | ninf => nan
  | num x => if x < 0 then nan else num (Real.sqrt x)

/-- Sample variance with one delta degree of freedom, the square of what
`pandas.Series.std()` (default `ddof=1`) computes on two or more values. -/
noncomputable def sampleVarR (xs : List ℝ) : ℝ :=
  (xs.map (fun x => (x - xs.sum / (xs.length : ℝ))^2)).sum /
    ((xs.length : ℝ) - 1)

/-- The sample standard deviation over a list of reals. -/
noncomputable def sampleStdR (xs : List ℝ) : ℝ := Real.sqrt (sampleVarR xs)

/-- `pandas.Series.std()` with the default `ddof=1`: `nan` on fewer than
two values (the `0/0` of the delta-degrees-of-freedom divisor), otherwise
the sample standard deviation. -/
noncomputable def pandasStd (xs : List ℝ) : FR :=
  if xs.length ≤ 1 then .nan else .num (sampleStdR xs)

/-- A rational-valued column viewed at its `float64` (real) values. -/
def ratList (xs : List ℚ) : List ℝ := xs.map (Rat.cast : ℚ → ℝ)

/-- `AnalyzeDataFrame.calculate_plqy_std` (`abs_plqy_gui.py:758-789`): take
the four mean-row averages and the four per-measurement standard
deviations (`.drop("mean_photon_counts").std()`), square the standard
deviations into variances, and combine them as
`qy_average * (qy_std_a + qy_std_b) ** (1/2)` with
`qy_std_a = (sample_fluor_var + blank_fluor_var) / (sample_fluor_average -
blank_fluor_average) ** 2` and symmetrically for the excitation window.
The float arithmetic is carried out in `FR` so that the `nan` produced by
`std()` on a single measurement propagates as in `float64`. -/
noncomputable def calculatePlqyStd (bA sA : RegionCounts) : FR :=
  let blankLaserStd := pandasStd (ratList bA.excitMeas)
  let blankFluorStd := pandasStd (ratList bA.fluorMeas)
  let sampleLaserStd := pandasStd (ratList sA.excitMeas)
  let sampleFluorStd := pandasStd (ratList sA.fluorMeas)
  let blankLaserVar := blankLaserStd.mul blankLaserStd
  let blankFluorVar := blankFluorStd.mul blankFluorStd
  let sampleLaserVar := sampleLaserStd.mul sampleLaserStd
  let sampleFluorVar := sampleFluorStd.mul sampleFluorStd
  let qyAverage := FR.div (.num ((sA.fluorMean : ℝ) - (bA.fluorMean : ℝ)))
    (.num ((bA.excitMean : ℝ) - (sA.excitMean : ℝ)))
  let qyStdA := FR.div (sampleFluorVar.add blankFluorVar)
    (.num (((sA.fluorMean : ℝ) - (bA.fluorMean : ℝ))^2))
  let qyStdB := FR.div (blankLaserVar.add sampleLaserVar)
    (.num (((bA.excitMean : ℝ) - (sA.excitMean : ℝ))^2))
  FR.mul qyAverage (FR.sqrtF (qyStdA.add qyStdB))

theorem FR.add_num (a b : ℝ) : FR.add (.num a) (.num b) = .num (a + b) := rfl

theorem FR.add_nan_left (x : FR) : FR.add .nan x = .nan := by
  cases x <;> rfl

theorem FR.mul_num (a b : ℝ) : FR.mul (.num a) (.num b) = .num (a * b) := rfl

theorem FR.mul_nan_right (x : FR) : FR.mul x .nan = .nan := by
  cases x <;> rfl

theorem FR.div_nan_left (x : FR) : FR.div .nan x = .nan := by
  cases x <;> rfl

theorem FR.div_num_num (a b : ℝ) (hb : b ≠ 0) :
    FR.div (.num a) (.num b) = .num (a / b) := by
  simp [FR.div, hb]

theorem FR.sqrtF_num (x : ℝ) (hx : 0 ≤ x) :
    FR.sqrtF (.num x) = .num (Real.sqrt x) := by
  simp [FR.sqrtF, not_lt.mpr hx]

theorem pandasStd_single (xs : List ℝ) (h : xs.length ≤ 1) :
    pandasStd xs = .nan := by
  simp [pandasStd, h]

theorem pandasStd_of_two_le (xs : List ℝ) (h : 2 ≤ xs.length) :
    pandasStd xs = .num (sampleStdR xs) := by
  have h1 : ¬ xs.length ≤ 1 := by omega
  simp [pandasStd, h1]

/-- Claim C3: with at least two measurements per set (so that the sample
standard deviations are finite) and nonzero photon balances, the
propagated PLQY standard deviation equals
`plqy * sqrt((var_sample_em + var_blank_em) / photons_emitted^2 +
(var_blank_ex + var_sample_ex) / photons_absorbed^2)`, each variance being
the square of the sample standard deviation over the per-measurement
region sums with the mean column excluded. -/
theorem plqy_std_propagation_formula (bA sA : RegionCounts)
    (hbx : 2 ≤ bA.excitMeas.length) (hbf : 2 ≤ bA.fluorMeas.length)
    (hsx : 2 ≤ sA.excitMeas.length) (hsf : 2 ≤ sA.fluorMeas.length)
    (hem : photonsEmittedMean bA sA ≠ 0)
    (hab : photonsAbsMean bA sA ≠ 0) :
    calculatePlqyStd bA sA = .num (((plqyMean bA sA : ℚ) : ℝ) *
      Real.sqrt (
        ((sampleStdR (ratList sA.fluorMeas))^2 +
          (sampleStdR (ratList bA.fluorMeas))^2) /
          ((photonsEmittedMean bA sA : ℚ) : ℝ)^2 +
        ((sampleStdR (ratList bA.excitMeas))^2 +
          (sampleStdR (ratList sA.excitMeas))^2) /
          ((photonsAbsMean bA sA : ℚ) : ℝ)^2)) := by
  have hem' : (sA.fluorMean : ℝ) - (bA.fluorMean : ℝ) ≠ 0 := by
    have : ((photonsEmittedMean bA sA : ℚ) : ℝ) ≠ 0 := by exact_mod_cast hem
    rw [photonsEmittedMean] at this
    push_cast at this
    exact this
  have hab' : (bA.excitMean : ℝ) - (sA.excitMean : ℝ) ≠ 0 := by
    have : ((photonsAbsMean bA sA : ℚ) : ℝ) ≠ 0 := by exact_mod_cast hab
    rw [photonsAbsMean] at this
    push_cast at this
    exact this
  have hbx' : 2 ≤ (ratList bA.excitMeas).length := by
    rw [ratList, List.length_map]; exact hbx
  have hbf' : 2 ≤ (ratList bA.fluorMeas).length := by
    rw [ratList, List.length_map]; exact hbf
  have hsx' : 2 ≤ (ratList sA.excitMeas).length := by
    rw [ratList, List.length_map]; exact hsx
  have hsf' : 2 ≤ (ratList sA.fluorMeas).length := by
    rw [ratList, List.length_map]; exact hsf
  have hS : 0 ≤
      (sampleStdR (ratList sA.fluorMeas) * sampleStdR (ratList sA.fluorMeas)
        + sampleStdR (ratList bA.fluorMeas) *
          sampleStdR (ratList bA.fluorMeas)) /
        ((sA.fluorMean : ℝ) - (bA.fluorMean : ℝ))^2 +
      (sampleStdR (ratList bA.excitMeas) * sampleStdR (ratList bA.excitMeas)
        + sampleStdR (ratList sA.excitMeas) *
          sampleStdR (ratList sA.excitMeas)) /
        ((bA.excitMean : ℝ) - (sA.excitMean : ℝ))^2 :=
    add_nonneg
      (div_nonneg (add_nonneg (mul_self_nonneg _) (mul_self_nonneg _))
        (sq_nonneg _))
      (div_nonneg (add_nonneg (mul_self_nonneg _) (mul_self_nonneg _))
        (sq_nonneg _))
  rw [calculatePlqyStd]
  simp only [pandasStd_of_two_le _ hbx', pandasStd_of_two_le _ hbf',
    pandasStd_of_two_le _ hsx', pandasStd_of_two_le _ hsf', FR.mul_num,
    FR.add_num, FR.div_num_num _ _ (pow_ne_zero 2 hem'),
    FR.div_num_num _ _ (pow_ne_zero 2 hab'), FR.div_num_num _ _ hab',
    FR.sqrtF_num _ hS, FR.mul_num]
  congr 1
  rw [plqyMean, photonsEmittedMean, photonsAbsMean]
  push_cast
  ring_nf

/-- Witness for C3 on concrete two-measurement region-sum tables. -/
theorem plqy_std_propagation_formula_witness :
    (2 ≤ (RegionCounts.excitMeas ⟨[1, 2], 3, [4, 6], 5⟩).length ∧
      2 ≤ (RegionCounts.fluorMeas ⟨[1, 2], 3, [4, 6], 5⟩).length ∧
      2 ≤ (RegionCounts.excitMeas ⟨[1, 1], 1, [2, 4], 9⟩).length ∧
      2 ≤ (RegionCounts.fluorMeas ⟨[1, 1], 1, [2, 4], 9⟩).length ∧
      photonsEmittedMean ⟨[1, 2], 3, [4, 6], 5⟩ ⟨[1, 1], 1, [2, 4], 9⟩ ≠ 0 ∧
      photonsAbsMean ⟨[1, 2], 3, [4, 6], 5⟩ ⟨[1, 1], 1, [2, 4], 9⟩ ≠ 0) ∧
    calculatePlqyStd ⟨[1, 2], 3, [4, 6], 5⟩ ⟨[1, 1], 1, [2, 4], 9⟩ =
      .num (((plqyMean ⟨[1, 2], 3, [4, 6], 5⟩ ⟨[1, 1], 1, [2, 4], 9⟩ :
          ℚ) : ℝ) *
        Real.sqrt (
          ((sampleStdR (ratList (RegionCounts.fluorMeas
              ⟨[1, 1], 1, [2, 4], 9⟩)))^2 +
            (sampleStdR (ratList (RegionCounts.fluorMeas
              ⟨[1, 2], 3, [4, 6], 5⟩)))^2) /
            ((photonsEmittedMean ⟨[1, 2], 3, [4, 6], 5⟩
              ⟨[1, 1], 1, [2, 4], 9⟩ : ℚ) : ℝ)^2 +
          ((sampleStdR (ratList (RegionCounts.excitMeas
              ⟨[1, 2], 3, [4, 6], 5⟩)))^2 +
            (sampleStdR (ratList (RegionCounts.excitMeas
              ⟨[1, 1], 1, [2, 4], 9⟩)))^2) /
            ((photonsAbsMean ⟨[1, 2], 3, [4, 6], 5⟩
              ⟨[1, 1], 1, [2, 4], 9⟩ : ℚ) : ℝ)^2)) :=
  ⟨⟨by norm_num, by norm_num, by norm_num, by norm_num,
      by norm_num [photonsEmittedMean], by norm_num [photonsAbsMean]⟩,
    plqy_std_propagation_formula ⟨[1, 2], 3, [4, 6], 5⟩
      ⟨[1, 1], 1, [2, 4], 9⟩ (by norm_num) (by norm_num) (by norm_num)
      (by norm_num) (by norm_num [photonsEmittedMean])
      (by norm_num [photonsAbsMean])⟩

/-- Claim C10: when each MeasurementSet holds exactly one measurement, the
single remaining per-measurement column makes `pandas.Series.std()` return
`nan`, which propagates so that `plqy_std` is `nan`, while the point
estimate `plqy_mean` is still a (finite) number whenever
`photons_absorbed` is nonzero. -/
theorem single_measurement_std_nan (bA sA : RegionCounts)
    (hbx : bA.excitMeas.length = 1) (hbf : bA.fluorMeas.length = 1)
    (hsx : sA.excitMeas.length = 1) (hsf : sA.fluorMeas.length = 1)
    (hab : photonsAbsMean bA sA ≠ 0) :
    calculatePlqyStd bA sA = .nan ∧
    plqyMeanF bA sA = .num (plqyMean bA sA) := by
  constructor
  · have hbf' : (ratList bA.fluorMeas).length ≤ 1 := by
      rw [ratList, List.length_map, hbf]
    have hsf' : (ratList sA.fluorMeas).length ≤ 1 := by
      rw [ratList, List.length_map, hsf]
    rw [calculatePlqyStd]
    simp only [pandasStd_single _ hbf', pandasStd_single _ hsf',
      FR.mul_nan_right, FR.add_nan_left, FR.div_nan_left, FR.sqrtF,
      FR.mul_nan_right]
  · simp [plqyMeanF, fdivF, hab, plqyMean]

/-- Witness for C10 on concrete single-measurement tables. -/
theorem single_measurement_std_nan_witness :
    ((RegionCounts.excitMeas ⟨[1], 2, [3], 4⟩).length = 1 ∧
      (RegionCounts.fluorMeas ⟨[1], 2, [3], 4⟩).length = 1 ∧
      (RegionCounts.excitMeas ⟨[5], 1, [6], 7⟩).length = 1 ∧
      (RegionCounts.fluorMeas ⟨[5], 1, [6], 7⟩).length = 1 ∧
      photonsAbsMean ⟨[1], 2, [3], 4⟩ ⟨[5], 1, [6], 7⟩ ≠ 0) ∧
    (calculatePlqyStd ⟨[1], 2, [3], 4⟩ ⟨[5], 1, [6], 7⟩ = .nan ∧
      plqyMeanF ⟨[1], 2, [3], 4⟩ ⟨[5], 1, [6], 7⟩ =
        .num (plqyMean ⟨[1], 2, [3], 4⟩ ⟨[5], 1, [6], 7⟩)) :=
  ⟨⟨by norm_num, by norm_num, by norm_num, by norm_num,
      by norm_num [photonsAbsMean]⟩,
    single_measurement_std_nan ⟨[1], 2, [3], 4⟩ ⟨[5], 1, [6], 7⟩
      (by norm_num) (by norm_num) (by norm_num) (by norm_num)
      (by norm_num [photonsAbsMean])⟩

/-- Shared state of one subrun of `collect_intensities`
(`abs_plqy_gui.py:129-141`) and its `measure_34410a_current_average`
polling thread (`abs_plqy_gui.py:151-165`): `eFlag` is the
`threading.Event`, `meanVar` the shared attribute
`initialize_frame.current_uA_mean` (holding the stale value of a previous
invocation when the subrun starts; on the very first invocation the
attribute does not even exist yet), `arr`/`reads` the poller's local
`power_array` and its position in the stream of multimeter readings,
`pollerDone` whether the poller has stored its mean and exited, and
`mainPC` the main thread's position (0: exposure in progress; 1: event
set; 2: settle sleep done; 3: mean read, result returned). `resultPower`
is the value the main thread returned; the ghost flag `readSawDone`
records whether the poller had already finished when the main thread read
the mean. -/
structure SamplerState where
  eFlag : Bool
  meanVar : ℚ
  arr : List ℚ
  reads : ℕ
  pollerDone : Bool
  mainPC : ℕ
  resultPower : Option ℚ
  readSawDone : Bool
deriving DecidableEq

/-- State at the start of one subrun, after the poller thread was spawned:
event clear, empty reading list, main thread blocked in the exposure.
`stale` is whatever `current_uA_mean` held beforehand. -/
def initState (stale : ℚ) : SamplerState :=
  ⟨false, stale, [], 0, false, 0, none, false⟩

/-- One iteration of the polling loop: if the event is not set, take one
multimeter reading (`stream` supplies the successive readings) and append
it; once the event is observed set, store the mean of the accumulated
readings into the shared attribute and exit. A finished poller takes no
further steps. -/
def pollerStep (stream : ℕ → ℚ) (s : SamplerState) : SamplerState :=
  if s.pollerDone then s
  else if s.eFlag then { s with meanVar := listMean s.arr, pollerDone := true }
  else { s with arr := s.arr ++ [stream s.reads], reads := s.reads + 1 }

/-- One step of the main thread: the blocking exposure returning and
`e.set()` (pc 0), the `time.sleep(0.2)` settle delay (pc 1) — which in the
untimed interleaving semantics orders nothing — and the read of
`current_uA_mean` as the returned power (pc 2). -/
def mainStep (s : SamplerState) : SamplerState :=
  if s.mainPC = 0 then { s with eFlag := true, mainPC := 1 }
  else if s.mainPC = 1 then { s with mainPC := 2 }
  else if s.mainPC = 2 then
    { s with resultPower := some s.meanVar,
             readSawDone := s.pollerDone, mainPC := 3 }
  else s

/-- Execute an interleaving: `true` schedules the main thread, `false` the
polling thread. -/
def run (stream : ℕ → ℚ) : List Bool → SamplerState → SamplerState
  | [], s => s
  | tid :: rest, s =>
      run stream rest (if tid then mainStep s else pollerStep stream s)

/-- Counterexample to C9 as stated: under the interleaving in which the
poller takes one reading and is then not scheduled again before the main
thread runs to completion (the settle sleep enforces no ordering), the
sampler returns the stale previous mean with the poll not yet stopped: the
returned power is not the mean of the readings this invocation
accumulated. -/
theorem sampler_race_counterexample :
    (run (fun _ => 1) [false, true, true, true] (initState 0)).resultPower =
      some 0 ∧
    (run (fun _ => 1) [false, true, true, true] (initState 0)).pollerDone =
      false ∧
    listMean (run (fun _ => 1) [false, true, true, true] (initState 0)).arr =
      1 ∧
    (run (fun _ => 1) [false, true, true, true] (initState 0)).resultPower ≠
      some (listMean
        (run (fun _ => 1) [false, true, true, true] (initState 0)).arr) := by
  norm_num [run, pollerStep, mainStep, initState, listMean]

/-- The synchronisation invariant: once the poller has finished, the
shared mean is the mean of the accumulated readings, and a main-thread
read that happened after the poller finished returned exactly that mean. -/
def SamplerInv (s : SamplerState) : Prop :=
  (s.pollerDone = true → s.meanVar = listMean s.arr) ∧
  (s.readSawDone = true → s.pollerDone = true) ∧
  (s.readSawDone = true → ∀ p, s.resultPower = some p → p = listMean s.arr)

theorem pollerStep_inv (stream : ℕ → ℚ) (s : SamplerState)
    (h : SamplerInv s) : SamplerInv (pollerStep stream s) := by
  obtain ⟨h1, h2, h3⟩ := h
  rw [pollerStep]
  split
  · exact ⟨h1, h2, h3⟩
  next hnd =>
    split
    · exact ⟨fun _ => rfl, fun _ => rfl, fun hr => absurd (h2 hr) hnd⟩
    · exact ⟨fun hd => absurd hd hnd, fun hr => absurd (h2 hr) hnd,
        fun hr => absurd (h2 hr) hnd⟩

theorem mainStep_inv (s : SamplerState) (h : SamplerInv s) :
    SamplerInv (mainStep s) := by
  obtain ⟨h1, h2, h3⟩ := h
  rw [mainStep]
  split
  · exact ⟨h1, h2, h3⟩
  · split
    · exact ⟨h1, h2, h3⟩
    · split
      · refine ⟨h1, fun hr => hr, fun hr p hp => ?_⟩
        have : s.meanVar = p := Option.some.inj hp
        rw [← this]
        exact h1 hr
      · exact ⟨h1, h2, h3⟩

theorem run_inv (stream : ℕ → ℚ) (sched : List Bool) (s : SamplerState)
    (h : SamplerInv s) : SamplerInv (run stream sched s) := by
  induction sched generalizing s with
  | nil => exact h
  | cons t rest ih =>
      cases t with
      | false => simpa [run] using ih _ (pollerStep_inv stream s h)
      | true => simpa [run] using ih _ (mainStep_inv s h)

/-- Claim C9 (amended): the sampler returns only after the exposure has
completed, the stop event has been set and the settle delay has elapsed;
and the returned power equals the mean of the readings the polling task
of this invocation accumulated, provided the polling task observed the
stop event and stored its mean before the main thread read it — which the
0.2 s settle delay makes likely but, having no ordering force in the
interleaving semantics, does not enforce. -/
theorem sampler_mean_power_when_poller_done (stream : ℕ → ℚ)
    (sched : List Bool) (stale : ℚ) (p : ℚ)
    (hsaw : (run stream sched (initState stale)).readSawDone = true)
    (hres : (run stream sched (initState stale)).resultPower = some p) :
    p = listMean (run stream sched (initState stale)).arr := by
  have hinv : SamplerInv (run stream sched (initState stale)) :=
    run_inv stream sched _ (by refine ⟨?_, ?_, ?_⟩ <;> simp [initState])
  exact hinv.2.2 hsaw p hres

/-- Witness for C9 (amended): an interleaving in which the poller stores
its mean before the main thread reads, so the returned power is the mean
of the single accumulated reading. -/
theorem sampler_mean_power_when_poller_done_witness :
    (run (fun _ => 1) [false, true, false, true, true]
      (initState 0)).readSawDone = true ∧
    (run (fun _ => 1) [false, true, false, true, true]
      (initState 0)).resultPower = some 1 ∧
    (1 : ℚ) = listMean (run (fun _ => 1) [false, true, false, true, true]
      (initState 0)).arr :=
  ⟨by norm_num [run, pollerStep, mainStep, initState, listMean],
   by norm_num [run, pollerStep, mainStep, initState, listMean],
   sampler_mean_power_when_poller_done _ _ _ _
     (by norm_num [run, pollerStep, mainStep, initState, listMean])
     (by norm_num [run, pollerStep, mainStep, initState, listMean])⟩

end AbsPlqy
